import Mathlib

/-!
Shallow embedding of `usb_watchdog.py` (Macpod LLC USB Watchdog CLI).

The HID transport (`hid.device`) is modelled as a `Transport` record of
response functions; every device-session operation returns its Python
result (`Except WDError α`, exceptions becoming `.error`) paired with the
list of transport calls it issued, in order.  The session's private
mutable handle `self._h` is modelled as an `Option Unit` field: `none`
after `close()`, mirroring `self._h = None`.
-/

set_option linter.unusedVariables false
set_option maxRecDepth 8192

deriving instance DecidableEq for Except

namespace UsbWatchdog

/-- Errors raised by the Python code.  Python raises `IOError` /
`ValueError` / `argparse.ArgumentTypeError` with distinguishing messages;
each distinct raise site is given its own constructor here. -/
inductive WDError where
  /-- IOError of USB Watchdog not open -/
  | notOpen
  /-- ValueError of received unexpected value -/
  | shortRead
  /-- IOError of data send failed, and the ValueError raised on a pet
  output-report length mismatch -/
  | writeMismatch
  /-- ValueError of value is too large -/
  | valueTooLarge
  /-- ValueError of serial number is already set -/
  | alreadySet
  /-- ValueError of serial number must be alphanumeric -/
  | invalidCharacters
  /-- ValueError of serial number must be 20 characters long -/
  | invalidLength
  /-- argparse.ArgumentTypeError raised by a CLI value checker -/
  | argumentTypeError
deriving DecidableEq, Repr

/-- One raw call on the HID transport (`self._h`). -/
inductive Event where
  /-- h.get_feature_report(fr_id, max_len) -/
  | getFeature (frId maxLen : Nat)
  /-- h.send_feature_report(array) -/
  | sendFeature (array : List Nat)
  /-- h.read(max_len, timeout) -/
  | readInput (maxLen timeout : Nat)
  /-- h.write(array) -/
  | write (array : List Nat)
  /-- h.close() -/
  | closeDev
deriving DecidableEq, Repr

/-- A deterministic model of the HID transport: what each raw call
returns.  `readResp` is indexed by how many input reads were already
issued, so consecutive reads can return different samples. -/
structure Transport where
  getFeatureResp : Nat → Nat → List Nat
  sendFeatureResp : List Nat → Nat
  readResp : Nat → List Nat
  writeResp : List Nat → Nat

/-- The device-session state: `h = none` models `self._h is None`. -/
structure USBWatchDog where
  h : Option Unit
deriving DecidableEq, Repr

/-- A session whose handle is present (freshly opened). -/
def openDog : USBWatchDog := { h := some () }

/- Class constants of `USBWatchDog` (report ids, lengths, bit masks). -/

def FR_SERIAL_NUMBER : Nat := 0x2
def FR_SERIAL_NUMBER_LEN : Nat := 20
def SERIAL_NUMBER_LEN : Nat := 20
def FR_NONVOLATILE_PINGLIGHT_BUZZER : Nat := 0x5
def FR_NONVOLATILE_PINGLIGHT_BUZZER_LEN : Nat := 1
def FR_VOLATILE_PINGLIGHT_BUZZER : Nat := 0x6
def FR_VOLATILE_PINGLIGHT_BUZZER_LEN : Nat := 1
def PINGLIGHT_BIT : Nat := 0x1
def BUZZER_BIT : Nat := 0x2
def FR_NONVOLATILE_BUZZER_FREQUENCY : Nat := 0x7
def FR_VOLATILE_BUZZER_FREQUENCY : Nat := 0x8
def IN_WATCHDOG_STATUS_LEN : Nat := 3
def WATCHDOG_IN_TIMEOUT_BIT : Nat := 0x1
def WATCHDOG_IN_REBOOT_BIT : Nat := 0x2
def WATCHDOG_IN_NONVOLATILE_BEACON_MODE_BIT : Nat := 0x4
def OUT_PET_WATCHDOG : Nat := 0x1
def OUT_PET_WATCHDOG_LEN : Nat := 1
def WATCHDOG_OUT_TIMEOUT_BIT : Nat := 0x1
def WATCHDOG_OUT_CLEARALARM_BIT : Nat := 0x2

/-- `__check_open`: raise `IOError` when `self._h is None`. -/
def checkOpen (d : USBWatchDog) : Except WDError Unit :=
  match d.h with
  | none => .error .notOpen
  | some _ => .ok ()

/-- `__to_uint16(array)`: `array[1]*256 + array[0]`. -/
def toUint16 (array : List Nat) : Nat :=
  array.getD 1 0 * 256 + array.getD 0 0

/-- `__from_uint16(val)`: raise when `val > 2**16 - 1`, else
`[val % 256, val // 256]`. -/
def fromUint16 (val : Nat) : Except WDError (List Nat) :=
  if val > 2 ^ 16 - 1 then .error .valueTooLarge
  else .ok [val % 256, val / 256]

/-- `__get_feature_report(fr_id, length)`: requires an open handle, asks
the transport for `length+1` bytes, raises when fewer come back, strips
the leading report-id byte (`array[1:length+1]`). -/
def getFeatureReport (t : Transport) (d : USBWatchDog) (frId length : Nat) :
    Except WDError (List Nat) × List Event :=
  match checkOpen d with
  | .error e => (.error e, [])
  | .ok _ =>
    let array := t.getFeatureResp frId (length + 1)
    if array.length < length + 1 then
      (.error .shortRead, [Event.getFeature frId (length + 1)])
    else
      (.ok ((array.drop 1).take length), [Event.getFeature frId (length + 1)])

/-- `__send_feature_report(array)`: requires an open handle, sends the
array, raises when the reported bytes-written differs from the array
length. -/
def sendFeatureReport (t : Transport) (d : USBWatchDog) (array : List Nat) :
    Except WDError Unit × List Event :=
  match checkOpen d with
  | .error e => (.error e, [])
  | .ok _ =>
    let length := t.sendFeatureResp array
    if array.length ≠ length then
      (.error .writeMismatch, [Event.sendFeature array])
    else
      (.ok (), [Event.sendFeature array])

/-- `__read_input(length, timeout)`: requires an open handle, issues one
raw input read (the `idx`-th read of this session, so consecutive reads
can see different queued samples), raises when the returned byte count
differs from `length`. -/
def readInputReport (t : Transport) (d : USBWatchDog) (idx length timeout : Nat) :
    Except WDError (List Nat) × List Event :=
  match checkOpen d with
  | .error e => (.error e, [])
  | .ok _ =>
    let array := t.readResp idx
    if array.length ≠ length then
      (.error .shortRead, [Event.readInput length timeout])
    else
      (.ok array, [Event.readInput length timeout])

/-- `__update_watchdog(timeout_bit, clear_alarm_bit)`: requires an open
handle; builds the single-byte pet/beacon output report and writes it,
raising when the reported length is not `OUT_PET_WATCHDOG_LEN+1`. -/
def updateWatchdog (t : Transport) (d : USBWatchDog)
    (timeout_bit clear_alarm_bit : Bool) : Except WDError Unit × List Event :=
  match checkOpen d with
  | .error e => (.error e, [])
  | .ok _ =>
    let val0 : Nat := 0
    let val1 := if timeout_bit then WATCHDOG_OUT_TIMEOUT_BIT else val0
    let val := if clear_alarm_bit then val1 ||| WATCHDOG_OUT_CLEARALARM_BIT else val1
    let length := t.writeResp [OUT_PET_WATCHDOG, val]
    if OUT_PET_WATCHDOG_LEN + 1 ≠ length then
      (.error .writeMismatch, [Event.write [OUT_PET_WATCHDOG, val]])
    else
      (.ok (), [Event.write [OUT_PET_WATCHDOG, val]])

/-- `close()`: checks the handle is present, closes it on the transport,
sets `self._h = None`. -/
def close (d : USBWatchDog) : Except WDError USBWatchDog × List Event :=
  match checkOpen d with
  | .error e => (.error e, [])
  | .ok _ => (.ok { h := none }, [Event.closeDev])

/-- `__get_nonvolatile_lights_buzzer()`: read the nonvolatile flags byte. -/
def getNonvolatileLightsBuzzer (t : Transport) (d : USBWatchDog) :
    Except WDError Nat × List Event :=
  match getFeatureReport t d FR_NONVOLATILE_PINGLIGHT_BUZZER FR_NONVOLATILE_PINGLIGHT_BUZZER_LEN with
  | (.error e, ev) => (.error e, ev)
  | (.ok array, ev) => (.ok (array.getD 0 0), ev)

/-- `__set_nonvolatile_pinglight_buzzer(pinglight, buzzer)`: re-read the
current flags byte, start from `newval = 0`, for each of the two flags
either keep the freshly read bit (argument `none`, Python `None`), set
the bit (`some true`) or leave it clear (`some false`), then send the
feature report. -/
def setNonvolatilePinglightBuzzer (t : Transport) (d : USBWatchDog)
    (pinglight buzzer : Option Bool) : Except WDError Unit × List Event :=
  match getNonvolatileLightsBuzzer t d with
  | (.error e, ev) => (.error e, ev)
  | (.ok val, ev) =>
    let newval0 : Nat := 0
    let newval1 :=
      match pinglight with
      | none => newval0 ||| (val &&& PINGLIGHT_BIT)
      | some true => newval0 ||| PINGLIGHT_BIT
      | some false => newval0
    let newval :=
      match buzzer with
      | none => newval1 ||| (val &&& BUZZER_BIT)
      | some true => newval1 ||| BUZZER_BIT
      | some false => newval1
    match sendFeatureReport t d [FR_NONVOLATILE_PINGLIGHT_BUZZER, newval] with
    | (r, ev2) => (r, ev ++ ev2)

/-- `__get_volatile_lights_buzzer()`: read the volatile flags byte. -/
def getVolatileLightsBuzzer (t : Transport) (d : USBWatchDog) :
    Except WDError Nat × List Event :=
  match getFeatureReport t d FR_VOLATILE_PINGLIGHT_BUZZER FR_VOLATILE_PINGLIGHT_BUZZER_LEN with
  | (.error e, ev) => (.error e, ev)
  | (.ok array, ev) => (.ok (array.getD 0 0), ev)

/-- `__set_volatile_pinglight_buzzer(pinglight, buzzer)`: same
read-modify-write as the nonvolatile variant, on the volatile report. -/
def setVolatilePinglightBuzzer (t : Transport) (d : USBWatchDog)
    (pinglight buzzer : Option Bool) : Except WDError Unit × List Event :=
  match getVolatileLightsBuzzer t d with
  | (.error e, ev) => (.error e, ev)
  | (.ok val, ev) =>
    let newval0 : Nat := 0
    let newval1 :=
      match pinglight with
      | none => newval0 ||| (val &&& PINGLIGHT_BIT)
      | some true => newval0 ||| PINGLIGHT_BIT
      | some false => newval0
    let newval :=
      match buzzer with
      | none => newval1 ||| (val &&& BUZZER_BIT)
      | some true => newval1 ||| BUZZER_BIT
      | some false => newval1
    match sendFeatureReport t d [FR_VOLATILE_PINGLIGHT_BUZZER, newval] with
    | (r, ev2) => (r, ev ++ ev2)

/-- `set_nonvolatile_pinglight(val)`: buzzer left at `None`. -/
def set_nonvolatile_pinglight (t : Transport) (d : USBWatchDog) (val : Bool) :
    Except WDError Unit × List Event :=
  setNonvolatilePinglightBuzzer t d (some val) none

/-- `set_nonvolatile_buzzer(val)`: pinglight left at `None`. -/
def set_nonvolatile_buzzer (t : Transport) (d : USBWatchDog) (val : Bool) :
    Except WDError Unit × List Event :=
  setNonvolatilePinglightBuzzer t d none (some val)

/-- `set_volatile_pinglight(val)`: buzzer left at `None`. -/
def set_volatile_pinglight (t : Transport) (d : USBWatchDog) (val : Bool) :
    Except WDError Unit × List Event :=
  setVolatilePinglightBuzzer t d (some val) none

/-- `set_volatile_buzzer(val)`: pinglight left at `None`. -/
def set_volatile_buzzer (t : Transport) (d : USBWatchDog) (val : Bool) :
    Except WDError Unit × List Event :=
  setVolatilePinglightBuzzer t d none (some val)

/-- `set_nonvolatile_buzzer_frequency(val)`: raises only when
`val > 2**8 - 1`, then sends the feature report. -/
def set_nonvolatile_buzzer_frequency (t : Transport) (d : USBWatchDog) (val : Nat) :
    Except WDError Unit × List Event :=
  if val > 2 ^ 8 - 1 then (.error .valueTooLarge, [])
  else sendFeatureReport t d ([FR_NONVOLATILE_BUZZER_FREQUENCY] ++ [val])

/-- `set_volatile_buzzer_frequency(val)`: raises only when
`val > 2**8 - 1`, then sends the feature report. -/
def set_volatile_buzzer_frequency (t : Transport) (d : USBWatchDog) (val : Nat) :
    Except WDError Unit × List Event :=
  if val > 2 ^ 8 - 1 then (.error .valueTooLarge, [])
  else sendFeatureReport t d ([FR_VOLATILE_BUZZER_FREQUENCY] ++ [val])

/-- `check_frequency(value)`: the CLI argparse validator; rejects values
below 42 or above `2**8 - 1`. -/
def check_frequency (ivalue : Nat) : Except WDError Nat :=
  if ivalue < 42 ∨ ivalue > 2 ^ 8 - 1 then .error .argumentTypeError
  else .ok ivalue

/-- A character matched by Python 2 `[\w-]` without `re.UNICODE`:
ASCII alphanumeric, underscore or hyphen. -/
def isWordChar (c : Char) : Bool :=
  c.isAlphanum || c == Char.ofNat 95 || c == Char.ofNat 45

/-- Python `re.match` of the anchored pattern over `[\w-]` characters on
`string` is not `None`: a nonempty all-word-character string, or (Python
dollar-anchor semantics) such a string followed by one final newline. -/
def matchesSerialRe (s : String) : Bool :=
  let cs := s.toList
  (decide (0 < cs.length) && cs.all isWordChar) ||
  (match cs.getLast? with
   | some c =>
     c == Char.ofNat 10 &&
       (decide (0 < cs.dropLast.length) && cs.dropLast.all isWordChar)
   | none => false)

/-- `get_serial_number()`: read the 20-byte serial report and join the
bytes as characters. -/
def get_serial_number (t : Transport) (d : USBWatchDog) :
    Except WDError String × List Event :=
  match getFeatureReport t d FR_SERIAL_NUMBER FR_SERIAL_NUMBER_LEN with
  | (.error e, ev) => (.error e, ev)
  | (.ok array, ev) => (.ok (String.mk (array.map Char.ofNat)), ev)

/-- The all-zero sentinel the device serial holds before it is set. -/
def zeroSentinel : String := "00000000000000000000"

/-- `set_serial_number(string)`: raise `already set` when the current
serial differs from the 20-zero sentinel; then raise on characters not
matching the word pattern; then raise on length different from 20; else
send the feature report with the character codes. -/
def set_serial_number (t : Transport) (d : USBWatchDog) (string : String) :
    Except WDError Unit × List Event :=
  match get_serial_number t d with
  | (.error e, ev) => (.error e, ev)
  | (.ok current, ev) =>
    if current ≠ zeroSentinel then (.error .alreadySet, ev)
    else if !(matchesSerialRe string) then (.error .invalidCharacters, ev)
    else if string.length ≠ SERIAL_NUMBER_LEN then (.error .invalidLength, ev)
    else
      match sendFeatureReport t d ([FR_SERIAL_NUMBER] ++ string.toList.map Char.toNat) with
      | (r, ev2) => (r, ev ++ ev2)

/-- The tuple returned by `get_status`. -/
structure StatusSample where
  triggered : Bool
  reboot_indicator : Bool
  beacon_mode : Bool
  counter : Nat
deriving DecidableEq, Repr

/-- `get_status(timeout)`: two consecutive raw input reads of
`IN_WATCHDOG_STATUS_LEN+1` bytes (the second overwrites `array`, so only
the second sample is decoded); bits of `array[1]` give the three flags
and `array[2:]` the little-endian counter. -/
def get_status (t : Transport) (d : USBWatchDog) (timeout : Nat) :
    Except WDError StatusSample × List Event :=
  match readInputReport t d 0 (IN_WATCHDOG_STATUS_LEN + 1) timeout with
  | (.error e, ev) => (.error e, ev)
  | (.ok _, ev1) =>
    match readInputReport t d 1 (IN_WATCHDOG_STATUS_LEN + 1) timeout with
    | (.error e, ev2) => (.error e, ev1 ++ ev2)
    | (.ok array, ev2) =>
      (.ok { triggered := array.getD 1 0 &&& WATCHDOG_IN_TIMEOUT_BIT != 0
             reboot_indicator := array.getD 1 0 &&& WATCHDOG_IN_REBOOT_BIT != 0
             beacon_mode := array.getD 1 0 &&& WATCHDOG_IN_NONVOLATILE_BEACON_MODE_BIT != 0
             counter := toUint16 (array.drop 2) },
       ev1 ++ ev2)

/-- `pet(clear_alarm=True)`: the source body is
`self.__update_watchdog(clear_alarm_bit=True)` — the `clear_alarm`
argument is never used; `timeout_bit` takes its default `True`. -/
def pet (t : Transport) (d : USBWatchDog) (clear_alarm : Bool) :
    Except WDError Unit × List Event :=
  updateWatchdog t d true true

/-- `set_beacon_state(triggered=True)`:
`self.__update_watchdog(timeout_bit=triggered)`; `clear_alarm_bit` takes
its default `True`. -/
def set_beacon_state (t : Transport) (d : USBWatchDog) (triggered : Bool) :
    Except WDError Unit × List Event :=
  updateWatchdog t d triggered true

/-- The argparse fields the embedded handlers consult.  `beacon_state`
models `args.beacon_state == 'on'`. -/
structure Args where
  detect_reboot : Bool
  detect_triggered : Bool
  beacon_state : Bool
deriving DecidableEq, Repr

/-- `handle_petting(watchdog)`: get status (any device error becomes
`USBWatchDogError(1)`); refuse with code 1 in beacon mode; code 2 when
rebooted and `--detect-reboot`; code 3 when triggered and
`--detect-triggered`; otherwise pet (errors there become code 1).
The raised `USBWatchDogError` number is the process exit code in
`main`; `.ok` means the action continues (exit 0 for `oneshot`). -/
def handle_petting (t : Transport) (d : USBWatchDog) (args : Args) :
    Except Nat Unit × List Event :=
  match get_status t d 2000 with
  | (.error _, ev) => (.error 1, ev)
  | (.ok st, ev) =>
    if st.beacon_mode then (.error 1, ev)
    else if st.reboot_indicator && args.detect_reboot then (.error 2, ev)
    else if st.triggered && args.detect_triggered then (.error 3, ev)
    else
      match pet t d true with
      | (.error _, ev2) => (.error 1, ev ++ ev2)
      | (.ok _, ev2) => (.ok (), ev ++ ev2)

/-- `handle_beacon_action(watchdog)`: get status (device errors become
code 1); refuse with code 1 when not in beacon mode; otherwise
`set_beacon_state(args.beacon_state == 'on')`, errors there becoming
code 1.  `.ok` makes `main` exit 0. -/
def handle_beacon_action (t : Transport) (d : USBWatchDog) (args : Args) :
    Except Nat Unit × List Event :=
  match get_status t d 2000 with
  | (.error _, ev) => (.error 1, ev)
  | (.ok st, ev) =>
    if !st.beacon_mode then (.error 1, ev)
    else
      match set_beacon_state t d args.beacon_state with
      | (.error _, ev2) => (.error 1, ev ++ ev2)
      | (.ok _, ev2) => (.ok (), ev ++ ev2)

/- Concrete transports used to exercise the operations. -/

/-- A well-behaved transport: feature reads return zero-filled reports of
the requested length, writes report the byte counts the code expects. -/
def okTransport : Transport where
  getFeatureResp := fun _ len1 => List.replicate len1 0
  sendFeatureResp := fun a => a.length
  readResp := fun _ => []
  writeResp := fun a => a.length

/-- A transport whose nonvolatile and volatile flags reports hold the
given prior bytes; other responses are well-behaved. -/
def flagsTransport (nvPrior vPrior : Nat) : Transport where
  getFeatureResp := fun frId len1 =>
    if frId = FR_NONVOLATILE_PINGLIGHT_BUZZER then [frId, nvPrior]
    else if frId = FR_VOLATILE_PINGLIGHT_BUZZER then [frId, vPrior]
    else List.replicate len1 0
  sendFeatureResp := fun a => a.length
  readResp := fun _ => []
  writeResp := fun a => a.length

/-- A transport that returns sample `A` on the first input read and `B`
on every later one. -/
def twoSampleTransport (A B : List Nat) : Transport where
  getFeatureResp := fun _ len1 => List.replicate len1 0
  sendFeatureResp := fun a => a.length
  readResp := fun idx => if idx = 0 then A else B
  writeResp := fun a => a.length

/-- The status flags byte assembled from the three indicator bits. -/
def statusBits (tr rb bc : Bool) : Nat :=
  (if tr then WATCHDOG_IN_TIMEOUT_BIT else 0) |||
  (if rb then WATCHDOG_IN_REBOOT_BIT else 0) |||
  (if bc then WATCHDOG_IN_NONVOLATILE_BEACON_MODE_BIT else 0)

/-- A transport whose every input read returns a 4-byte status report
with the given flags byte and counter 0. -/
def statusTransport (f : Nat) : Transport where
  getFeatureResp := fun _ len1 => List.replicate len1 0
  sendFeatureResp := fun a => a.length
  readResp := fun _ => [1, f, 0, 0]
  writeResp := fun a => a.length

/-- A transport whose serial-number feature report returns the given
20 payload bytes (prefixed by the report id, as the device does). -/
def serialTransport (cur : List Nat) : Transport where
  getFeatureResp := fun frId len1 =>
    if frId = FR_SERIAL_NUMBER then [FR_SERIAL_NUMBER] ++ cur
    else List.replicate len1 0
  sendFeatureResp := fun a => a.length
  readResp := fun _ => []
  writeResp := fun a => a.length

/-- The flags byte a read-modify-write setter sent, when its trace is
one feature read followed by one two-byte feature send. -/
def sentFlagsByte (r : Except WDError Unit × List Event) : Option Nat :=
  match r.2 with
  | [Event.getFeature _ _, Event.sendFeature [_, b]] => some b
  | _ => none

/-- The `oneshot`/`continuous` pet step run against a device whose
status report carries the three given indicator bits, with the two
detection flags as given. -/
def petScenario (trig rb bc dr dt : Bool) : Except Nat Unit × List Event :=
  handle_petting (statusTransport (statusBits trig rb bc)) openDog
    { detect_reboot := dr, detect_triggered := dt, beacon_state := false }

/-- The trace of the two status reads `get_status` always issues with
the default 2000 ms timeout. -/
def readTwice : List Event := [Event.readInput 4 2000, Event.readInput 4 2000]

/- ################################################################## -/
/- Theorems settling the claims.                                      -/
/- ################################################################## -/

/-- Claim C1 (code bug): `pet(clear_alarm=False)` is claimed to write a
byte whose clear-alarm bit is clear, but the source body passes the
literal `True` for `clear_alarm_bit` and ignores the `clear_alarm`
argument: the written byte is `0x3`, with the clear-alarm bit set. -/
theorem C1_pet_ignores_clear_alarm_argument :
    pet okTransport openDog false =
      (.ok (), [Event.write [OUT_PET_WATCHDOG,
        WATCHDOG_OUT_TIMEOUT_BIT ||| WATCHDOG_OUT_CLEARALARM_BIT]]) ∧
    (WATCHDOG_OUT_TIMEOUT_BIT ||| WATCHDOG_OUT_CLEARALARM_BIT) &&&
        WATCHDOG_OUT_CLEARALARM_BIT ≠ 0 := by
  decide

/-- Claim C2 counterexample: the device-session setter accepts 41 and
performs the feature-report write, contradicting the claim that
`set_*_buzzer_frequency(41)` fails. -/
theorem C2_frequency_counterexample :
    set_nonvolatile_buzzer_frequency okTransport openDog 41 =
      (.ok (), [Event.sendFeature [FR_NONVOLATILE_BUZZER_FREQUENCY, 41]]) ∧
    set_volatile_buzzer_frequency okTransport openDog 41 =
      (.ok (), [Event.sendFeature [FR_VOLATILE_BUZZER_FREQUENCY, 41]]) := by
  decide

/-- Claim C2 (amended): the device-session buzzer-frequency setters
reject only `f > 255` (value-too-large, no transport call) and perform
the feature-report write for every `f ≤ 255`, including 41, 42 and 255;
the lower bound 42 is enforced only by the CLI argparse validator
`check_frequency`, which rejects exactly `f < 42` or `f > 255` (so 41
and 256 fail there, and 42 and 255 pass). -/
theorem C2_frequency_amended (f : Nat) :
    (255 < f →
      set_nonvolatile_buzzer_frequency okTransport openDog f = (.error .valueTooLarge, []) ∧
      set_volatile_buzzer_frequency okTransport openDog f = (.error .valueTooLarge, [])) ∧
    (f ≤ 255 →
      set_nonvolatile_buzzer_frequency okTransport openDog f =
        (.ok (), [Event.sendFeature [FR_NONVOLATILE_BUZZER_FREQUENCY, f]]) ∧
      set_volatile_buzzer_frequency okTransport openDog f =
        (.ok (), [Event.sendFeature [FR_VOLATILE_BUZZER_FREQUENCY, f]])) ∧
    (check_frequency f = .ok f ↔ 42 ≤ f ∧ f ≤ 255) ∧
    ((f < 42 ∨ 255 < f) → check_frequency f = .error .argumentTypeError) := by
  refine ⟨?_, ?_, ?_, ?_⟩
  · intro h
    constructor <;>
      · simp only [set_nonvolatile_buzzer_frequency, set_volatile_buzzer_frequency]
        rw [if_pos (by omega)]
  · intro h
    constructor <;>
      · simp only [set_nonvolatile_buzzer_frequency, set_volatile_buzzer_frequency]
        rw [if_neg (by omega)]
        simp [sendFeatureReport, checkOpen, openDog, okTransport]
  · constructor
    · intro h
      simp only [check_frequency] at h
      by_cases hc : f < 42 ∨ 255 < f
      · rw [if_pos (by omega)] at h
        exact absurd h (by simp)
      · omega
    · intro h
      simp only [check_frequency]
      rw [if_neg (by omega)]
  · intro h
    simp only [check_frequency]
    rw [if_pos (by omega)]

/-- Claim C2 amended, exercised at 300 (too large), 200 (written),
100 (validator accepts) and 10 (validator rejects). -/
theorem C2_frequency_amended_witness :
    (set_nonvolatile_buzzer_frequency okTransport openDog 300 = (.error .valueTooLarge, []) ∧
     set_volatile_buzzer_frequency okTransport openDog 300 = (.error .valueTooLarge, [])) ∧
    (set_nonvolatile_buzzer_frequency okTransport openDog 200 =
        (.ok (), [Event.sendFeature [FR_NONVOLATILE_BUZZER_FREQUENCY, 200]]) ∧
     set_volatile_buzzer_frequency okTransport openDog 200 =
        (.ok (), [Event.sendFeature [FR_VOLATILE_BUZZER_FREQUENCY, 200]])) ∧
    check_frequency 100 = .ok 100 ∧
    check_frequency 10 = .error .argumentTypeError :=
  ⟨(C2_frequency_amended 300).1 (by decide),
   (C2_frequency_amended 200).2.1 (by decide),
   ((C2_frequency_amended 100).2.2.1).mpr (by decide),
   (C2_frequency_amended 10).2.2.2 (by decide)⟩

/-- Claim C3: for every prior value of the shared flags byte, setting
only the ping-light leaves the buzzer bit of the written byte equal to
the buzzer bit of the freshly re-read current value, and setting only
the buzzer leaves the ping-light bit unchanged, on both the volatile
and the nonvolatile report. -/
theorem C3_flag_preservation :
    ∀ prior < 256, ∀ v : Bool,
      (sentFlagsByte (set_nonvolatile_pinglight (flagsTransport prior prior) openDog v)).map
          (fun b => b &&& BUZZER_BIT) = some (prior &&& BUZZER_BIT) ∧
      (sentFlagsByte (set_nonvolatile_buzzer (flagsTransport prior prior) openDog v)).map
          (fun b => b &&& PINGLIGHT_BIT) = some (prior &&& PINGLIGHT_BIT) ∧
      (sentFlagsByte (set_volatile_pinglight (flagsTransport prior prior) openDog v)).map
          (fun b => b &&& BUZZER_BIT) = some (prior &&& BUZZER_BIT) ∧
      (sentFlagsByte (set_volatile_buzzer (flagsTransport prior prior) openDog v)).map
          (fun b => b &&& PINGLIGHT_BIT) = some (prior &&& PINGLIGHT_BIT) := by
  decide

/-- Claim C3 exercised at prior flags byte 2 (buzzer on, light off)
while switching the ping-light on. -/
theorem C3_flag_preservation_witness :
    (sentFlagsByte (set_nonvolatile_pinglight (flagsTransport 2 2) openDog true)).map
        (fun b => b &&& BUZZER_BIT) = some (2 &&& BUZZER_BIT) :=
  (C3_flag_preservation 2 (by decide) true).1

/-- Claim C4: against a transport whose first status read returns A and
whose second returns B (both 4 bytes), `get_status` issues exactly two
reads of `IN_WATCHDOG_STATUS_LEN+1` bytes with the given timeout and
decodes only B (flag bits from B's second byte, counter little-endian
from B's last two bytes); a wrong byte count on either read raises. -/
theorem C4_status_double_read (A B : List Nat) (hA : A.length = 4) (hB : B.length = 4)
    (timeout : Nat) :
    get_status (twoSampleTransport A B) openDog timeout =
      (.ok { triggered := B.getD 1 0 &&& WATCHDOG_IN_TIMEOUT_BIT != 0
             reboot_indicator := B.getD 1 0 &&& WATCHDOG_IN_REBOOT_BIT != 0
             beacon_mode := B.getD 1 0 &&& WATCHDOG_IN_NONVOLATILE_BEACON_MODE_BIT != 0
             counter := B.getD 2 0 + B.getD 3 0 * 256 },
       [Event.readInput 4 timeout, Event.readInput 4 timeout]) ∧
    (∀ A2 : List Nat, A2.length ≠ 4 →
      (get_status (twoSampleTransport A2 B) openDog timeout).1 =
        Except.error WDError.shortRead) ∧
    (∀ B2 : List Nat, B2.length ≠ 4 →
      (get_status (twoSampleTransport A B2) openDog timeout).1 =
        Except.error WDError.shortRead) := by
  refine ⟨?_, ?_, ?_⟩
  · rcases B with _ | ⟨b0, _ | ⟨b1, _ | ⟨b2, _ | ⟨b3, _ | ⟨b4, B⟩⟩⟩⟩⟩ <;> simp_all
    rcases A with _ | ⟨a0, _ | ⟨a1, _ | ⟨a2, _ | ⟨a3, _ | ⟨a4, A⟩⟩⟩⟩⟩ <;> simp_all
    simp [get_status, readInputReport, twoSampleTransport, checkOpen, openDog,
      IN_WATCHDOG_STATUS_LEN, toUint16]
    omega
  · intro A2 h2
    simp [get_status, readInputReport, twoSampleTransport, checkOpen, openDog,
      IN_WATCHDOG_STATUS_LEN, h2]
  · intro B2 h2
    simp [get_status, readInputReport, twoSampleTransport, checkOpen, openDog,
      IN_WATCHDOG_STATUS_LEN, hA, h2]

/-- Claim C4 exercised: first sample [1,7,9,9] is discarded, second
sample [1,5,2,1] decodes to triggered, beacon mode, counter 258; an
empty first read fails. -/
theorem C4_status_double_read_witness :
    get_status (twoSampleTransport [1, 7, 9, 9] [1, 5, 2, 1]) openDog 2000 =
      (.ok { triggered := true
             reboot_indicator := false
             beacon_mode := true
             counter := 258 },
       [Event.readInput 4 2000, Event.readInput 4 2000]) ∧
    (get_status (twoSampleTransport [] [1, 5, 2, 1]) openDog 2000).1 =
      Except.error WDError.shortRead :=
  ⟨(C4_status_double_read [1, 7, 9, 9] [1, 5, 2, 1] rfl rfl 2000).1,
   (C4_status_double_read [1, 7, 9, 9] [1, 5, 2, 1] rfl rfl 2000).2.1 [] (by decide)⟩

/-- Claim C5: in the pet step of the pet-family actions, a status sample
with the beacon bit exits with code 1; else a reboot bit with
`--detect-reboot` exits 2; else a triggered bit with
`--detect-triggered` exits 3; in those three cases no output report is
written, and the pet write happens exactly when none of them holds
(the raised code is the process exit code in `main`). -/
theorem C5_pet_gate (trig rb bc dr dt : Bool) :
    (bc = true → petScenario trig rb bc dr dt = (.error 1, readTwice)) ∧
    (bc = false → (rb && dr) = true →
      petScenario trig rb bc dr dt = (.error 2, readTwice)) ∧
    (bc = false → (rb && dr) = false → (trig && dt) = true →
      petScenario trig rb bc dr dt = (.error 3, readTwice)) ∧
    (bc = false → (rb && dr) = false → (trig && dt) = false →
      petScenario trig rb bc dr dt =
        (.ok (), readTwice ++ [Event.write [OUT_PET_WATCHDOG,
            WATCHDOG_OUT_TIMEOUT_BIT ||| WATCHDOG_OUT_CLEARALARM_BIT]])) := by
  refine ⟨?_, ?_, ?_, ?_⟩ <;> (revert trig rb bc dr dt; decide)

/-- Claim C5 exercised: rebooted device with `--detect-reboot` exits 2
without petting; beacon-mode device exits 1 without petting. -/
theorem C5_pet_gate_witness :
    petScenario false true false true false = (.error 2, readTwice) ∧
    petScenario false false true false false = (.error 1, readTwice) :=
  ⟨(C5_pet_gate false true false true false).2.1 rfl rfl,
   (C5_pet_gate false false true false false).1 rfl⟩

/-- Helper: on a transport whose serial report holds 20 payload bytes,
`get_serial_number` returns exactly those bytes as characters, after
one feature read of 21 bytes. -/
theorem getSerialSerialTransport (cur : List Nat) (hcur : cur.length = 20) :
    get_serial_number (serialTransport cur) openDog =
      (.ok (String.mk (cur.map Char.ofNat)), [Event.getFeature FR_SERIAL_NUMBER 21]) := by
  simp [get_serial_number, getFeatureReport, serialTransport, checkOpen, openDog,
    FR_SERIAL_NUMBER, FR_SERIAL_NUMBER_LEN, hcur]
  rw [List.take_of_length_le (by simp [hcur])]

/-- Claim C6: `set_serial_number` fails with already-set whenever the
re-read current serial differs from the 20-zero sentinel, regardless of
the new value; with the sentinel present it fails on characters outside
the word pattern, then on a length different from 20, and otherwise
writes the feature report with the character codes. -/
theorem C6_serial_immutability (cur : List Nat) (hcur : cur.length = 20) (s : String) :
    (String.mk (cur.map Char.ofNat) ≠ zeroSentinel →
      set_serial_number (serialTransport cur) openDog s =
        (.error .alreadySet, [Event.getFeature FR_SERIAL_NUMBER 21])) ∧
    (String.mk (cur.map Char.ofNat) = zeroSentinel → matchesSerialRe s = false →
      set_serial_number (serialTransport cur) openDog s =
        (.error .invalidCharacters, [Event.getFeature FR_SERIAL_NUMBER 21])) ∧
    (String.mk (cur.map Char.ofNat) = zeroSentinel → matchesSerialRe s = true →
      s.length ≠ 20 →
      set_serial_number (serialTransport cur) openDog s =
        (.error .invalidLength, [Event.getFeature FR_SERIAL_NUMBER 21])) ∧
    (String.mk (cur.map Char.ofNat) = zeroSentinel → matchesSerialRe s = true →
      s.length = 20 →
      set_serial_number (serialTransport cur) openDog s =
        (.ok (), [Event.getFeature FR_SERIAL_NUMBER 21,
          Event.sendFeature ([FR_SERIAL_NUMBER] ++ s.toList.map Char.toNat)])) := by
  have hg := getSerialSerialTransport cur hcur
  refine ⟨?_, ?_, ?_, ?_⟩
  · intro h1
    simp only [set_serial_number]
    rw [hg]
    simp [h1]
  · intro h1 h2
    simp only [set_serial_number]
    rw [hg]
    simp [h1, h2]
  · intro h1 h2 h3
    simp only [set_serial_number]
    rw [hg]
    simp [h1, h2, h3, SERIAL_NUMBER_LEN]
  · intro h1 h2 h3
    simp only [set_serial_number]
    rw [hg]
    simp [h1, h2, h3, SERIAL_NUMBER_LEN, sendFeatureReport, checkOpen, openDog,
      serialTransport]

/-- Claim C6 exercised: a device serial of twenty byte-49 characters
(all ones) rejects any new serial as already set, even a valid one; the
all-zero sentinel accepts a valid 20-character serial. -/
theorem C6_serial_immutability_witness :
    set_serial_number (serialTransport (List.replicate 20 49)) openDog
        "ABCDEFGHIJKLMNOPQRST" =
      (.error .alreadySet, [Event.getFeature FR_SERIAL_NUMBER 21]) ∧
    set_serial_number (serialTransport (List.replicate 20 48)) openDog
        "ABCDEFGHIJKLMNOPQRST" =
      (.ok (), [Event.getFeature FR_SERIAL_NUMBER 21,
        Event.sendFeature ([FR_SERIAL_NUMBER] ++
          "ABCDEFGHIJKLMNOPQRST".toList.map Char.toNat)]) :=
  ⟨(C6_serial_immutability (List.replicate 20 49) (by decide)
      "ABCDEFGHIJKLMNOPQRST").1 (by decide),
   (C6_serial_immutability (List.replicate 20 48) (by decide)
      "ABCDEFGHIJKLMNOPQRST").2.2.2 (by decide) (by decide) (by decide)⟩

/-- Claim C7: every protocol primitive (feature get, feature send,
input read, pet/beacon output write) and `close` itself first checks
the handle; `close` leaves the handle absent, and on a handle-less
session every one of them, including a second `close`, returns the
not-open error with no transport call. -/
theorem C7_not_open_after_close (t : Transport) (frId length idx timeout : Nat)
    (tb cb : Bool) (arr : List Nat) :
    close openDog = (.ok { h := none }, [Event.closeDev]) ∧
    ∀ d : USBWatchDog, d.h = none →
      getFeatureReport t d frId length = (.error .notOpen, []) ∧
      sendFeatureReport t d arr = (.error .notOpen, []) ∧
      readInputReport t d idx length timeout = (.error .notOpen, []) ∧
      updateWatchdog t d tb cb = (.error .notOpen, []) ∧
      close d = (.error .notOpen, []) := by
  refine ⟨rfl, ?_⟩
  intro d hd
  cases d with
  | mk h => subst hd; exact ⟨rfl, rfl, rfl, rfl, rfl⟩

/-- Claim C7 exercised on the closed session: a feature read and a
second close both fail with not-open and touch no transport. -/
theorem C7_not_open_after_close_witness :
    getFeatureReport okTransport { h := none } 2 20 = (.error .notOpen, []) ∧
    close { h := none } = (.error .notOpen, []) := by
  have h := C7_not_open_after_close okTransport 2 20 0 2000 true true [1, 2]
  exact ⟨(h.2 { h := none } rfl).1, (h.2 { h := none } rfl).2.2.2.2⟩

/-- Claim C8: for every v up to 65535 the little-endian uint16 encoder
produces two bytes that decode back to v, and it fails with the
value-too-large error for every larger v. -/
theorem C8_uint16_roundtrip (v : Nat) :
    (v ≤ 65535 → fromUint16 v = .ok [v % 256, v / 256] ∧
      toUint16 [v % 256, v / 256] = v) ∧
    (65535 < v → fromUint16 v = .error .valueTooLarge) := by
  constructor
  · intro h
    constructor
    · simp only [fromUint16]
      rw [if_neg (by omega)]
    · simp [toUint16]
      omega
  · intro h
    simp only [fromUint16]
    rw [if_pos (by omega)]

/-- Claim C8 exercised at 40000 (round-trips) and 70000 (rejected). -/
theorem C8_uint16_roundtrip_witness :
    (fromUint16 40000 = .ok [40000 % 256, 40000 / 256] ∧
      toUint16 [40000 % 256, 40000 / 256] = 40000) ∧
    fromUint16 70000 = .error .valueTooLarge :=
  ⟨(C8_uint16_roundtrip 40000).1 (by decide), (C8_uint16_roundtrip 70000).2 (by decide)⟩

/-- Claim C9: the beacon action exits 1 and writes no output report
when the status sample shows watchdog mode; in beacon mode it writes
the shared output report whose timeout-bit position carries the
requested on/off flag and returns success (exit 0 in `main`). -/
theorem C9_beacon_gate (trig rb bc bOn : Bool) :
    (bc = false →
      handle_beacon_action (statusTransport (statusBits trig rb bc)) openDog
          { detect_reboot := false, detect_triggered := false, beacon_state := bOn } =
        (.error 1, readTwice)) ∧
    (bc = true →
      handle_beacon_action (statusTransport (statusBits trig rb bc)) openDog
          { detect_reboot := false, detect_triggered := false, beacon_state := bOn } =
        (.ok (), readTwice ++ [Event.write [OUT_PET_WATCHDOG,
          (if bOn then WATCHDOG_OUT_TIMEOUT_BIT else 0) ||| WATCHDOG_OUT_CLEARALARM_BIT]]) ∧
      ((if bOn then WATCHDOG_OUT_TIMEOUT_BIT else 0) ||| WATCHDOG_OUT_CLEARALARM_BIT) &&&
          WATCHDOG_OUT_TIMEOUT_BIT = (if bOn then 1 else 0)) := by
  refine ⟨?_, ?_⟩ <;> (revert trig rb bc bOn; decide)

/-- Claim C9 exercised: `beacon on` against watchdog mode exits 1 with
no write; against beacon mode it writes byte 3 (on flag in the
timeout-bit position plus the clear-alarm bit). -/
theorem C9_beacon_gate_witness :
    handle_beacon_action (statusTransport (statusBits false false false)) openDog
        { detect_reboot := false, detect_triggered := false, beacon_state := true } =
      (.error 1, readTwice) ∧
    handle_beacon_action (statusTransport (statusBits false false true)) openDog
        { detect_reboot := false, detect_triggered := false, beacon_state := true } =
      (.ok (), readTwice ++ [Event.write [OUT_PET_WATCHDOG, 3]]) :=
  ⟨(C9_beacon_gate false false false true).1 rfl,
   ((C9_beacon_gate false false true true).2 rfl).1⟩

/-- Claim C10: for every prior flags byte, both read-modify-write
setters, under every combination of arguments, write a byte below 4:
bits 2 through 7 of the freshly re-read value are cleared, not
preserved. -/
theorem C10_high_bits_cleared :
    ∀ prior < 256, ∀ pl bz : Option Bool,
      (sentFlagsByte (setNonvolatilePinglightBuzzer (flagsTransport prior prior)
          openDog pl bz)).map (fun b => b &&& 252) = some 0 ∧
      (sentFlagsByte (setVolatilePinglightBuzzer (flagsTransport prior prior)
          openDog pl bz)).map (fun b => b &&& 252) = some 0 := by
  decide

/-- Claim C10 exercised at prior byte 0xF7: the upper bits are dropped
by the write. -/
theorem C10_high_bits_cleared_witness :
    (sentFlagsByte (setNonvolatilePinglightBuzzer (flagsTransport 247 247)
        openDog (some true) none)).map (fun b => b &&& 252) = some 0 :=
  (C10_high_bits_cleared 247 (by decide) (some true) none).1

end UsbWatchdog
